import Mathlib

/-!
Verification of the concurrent TCP port scanner of
`sysadmin_toolkit/port_scanner.py` against its specification.

The three Python functions `scan_port`, `scan_ports` and `quick_scan` are
shallowly embedded.  The network and the resolver are modelled by an `Env`
record of pure functions; the nondeterministic order in which
`as_completed` yields the futures is an explicit `order : List Nat`
parameter, assumed in the theorems to be a permutation of the submitted
ports.  Console output (`print`) and the progress counter are pure
side effects with no influence on the returned values and are not
modelled.
-/

namespace PortScanner

/-- The status strings `scan_port` writes into its result dictionary:
`"abierto"` (open), `"cerrado"` (closed) and `"error"`. -/
inductive Status
  | abierto
  | cerrado
  | error
deriving DecidableEq, Repr

/-- The dictionary returned by `scan_port`: keys `"port"`, `"status"`,
`"service"` and, only for status `"error"`, `"error"`.  An absent key is
`none`. -/
structure PortResult where
  port : Nat
  status : Status
  service : Option String
  error : Option String
deriving DecidableEq, Repr

/-- Outcome of one TCP connect attempt, as the operating system reports it
for a given `(host, port, timeout)` triple.  A C-level connect failure is
reported through a nonzero `errno` — refusal (`ECONNREFUSED` 111), an
elapsed `settimeout` deadline (`EAGAIN` 11), or any other code such as
`ENETUNREACH` 101 for an unreachable network; only a failure raised
outside the C-level connect call — e.g. `socket.gaierror` while
re-resolving the host string passed to the probe, or a failed socket
creation — reaches Python as a raised `socket.error`. -/
inductive ProbeEvent
  | accepted
  | refused
  | timedOut
  | failCode (c : {z : Int // z ≠ 0})
  | raisedError (msg : String)
deriving DecidableEq

/-- What `sock.connect_ex` hands back to the Python code: an integer code
(`0` on success) or a raised `socket.error` carrying a message. -/
inductive ConnectExOutcome
  | code (r : Int)
  | raised (msg : String)
deriving DecidableEq, Repr

/-- `connect_ex` semantics: an accepted connection returns `0`; an active
refusal returns `errno.ECONNREFUSED` (111); an elapsed `settimeout`
deadline makes `connect_ex` return `errno.EAGAIN` (11) rather than raise;
any other C-level connect failure (e.g. `ENETUNREACH` 101) is likewise
returned as its nonzero `errno` code; only errors raised outside the
C-level connect call (re-resolution of the host string, socket creation)
propagate as a raised `socket.error` carrying a message. -/
def connect_ex : ProbeEvent → ConnectExOutcome
  | .accepted => .code 0
  | .refused => .code 111
  | .timedOut => .code 11
  | .failCode c => .code c.1
  | .raisedError msg => .raised msg

/-- The environment a scan runs against: `socket.gethostbyname`
(`none` models a raised `socket.gaierror`), the connect outcome for each
`(host, port, timeout)` triple, and `socket.getservbyport`
(`none` models a raised `OSError`). -/
structure Env where
  gethostbyname : String → Option String
  connect : String → Nat → ℚ → ProbeEvent
  getservbyport : Nat → Option String

/-- `scan_port(host, port, timeout)` of `port_scanner.py`: one TCP connect
via `connect_ex`; code `0` means open (with a best-effort
`getservbyport` lookup falling back to the string `"desconocido"`), any
other code means closed, and a raised `socket.error` is caught and turned
into an `"error"` result carrying the message. -/
def scan_port (env : Env) (host : String) (port : Nat) (timeout : ℚ) : PortResult :=
  match connect_ex (env.connect host port timeout) with
  | .code result =>
      if result = 0 then
        match env.getservbyport port with
        | some service =>
            { port := port, status := .abierto, service := some service, error := none }
        | none =>
            { port := port, status := .abierto, service := some "desconocido", error := none }
      else
        { port := port, status := .cerrado, service := none, error := none }
  | .raised e =>
      { port := port, status := .error, service := none, error := some e }

/-- `range(start_port, end_port + 1)`: the ports `scan_ports` probes. -/
def ports_to_scan (start_port end_port : Nat) : List Nat :=
  List.range' start_port (end_port + 1 - start_port)

/-- `sorted(open_ports, key=lambda x: x["port"])` compares results by their
port number. -/
def byPortLE (a b : PortResult) : Prop := a.port ≤ b.port

/-- Strict version of the port-number order, used to state that the final
report is strictly ascending. -/
def byPortLT (a b : PortResult) : Prop := a.port < b.port

instance : DecidableRel byPortLE := fun a b => Nat.decLe a.port b.port

instance : DecidableRel byPortLT := fun a b => Nat.decLt a.port b.port

instance : IsTotal PortResult byPortLE := ⟨fun a b => Nat.le_total a.port b.port⟩

instance : IsTrans PortResult byPortLE := ⟨fun _ _ _ => Nat.le_trans⟩

instance : IsAntisymm PortResult byPortLT :=
  ⟨fun _ _ h1 h2 => absurd h2 (Nat.lt_asymm h1)⟩

/-- Python default arguments of `scan_ports`: `start_port=1`. -/
def default_start_port : Nat := 1

/-- Python default arguments of `scan_ports`: `end_port=1024`. -/
def default_end_port : Nat := 1024

/-- Python default arguments of `scan_ports`: `timeout=1.0`. -/
def default_timeout : ℚ := 1

/-- Python default arguments of `scan_ports`: `max_workers=100`. -/
def default_max_workers : Nat := 100

/-- Observable trace of one `scan_ports` call: the `(host, port, timeout)`
argument triples of every `executor.submit(scan_port, host, port, timeout)`,
the per-port results in the order `as_completed` yields them, and the list
the function returns. -/
structure ScanRun where
  dispatched : List (String × Nat × ℚ)
  results : List PortResult
  returned : List PortResult
deriving DecidableEq, Repr

/-- `scan_ports(host, start_port, end_port, timeout, max_workers)`.
On `socket.gaierror` the function prints an error message and returns the
empty list, submitting nothing.  Otherwise `gethostbyname` yields
`target_ip` (printed and otherwise unused: every submission passes the
original `host` string), one future per port of
`range(start_port, end_port + 1)` is submitted, the loop over
`as_completed` collects each result (`order` is the completion order),
keeps those with status `"abierto"`, and the function returns them sorted
by port number.  `max_workers` only sizes the thread pool and does not
affect the returned value. -/
def scan_ports_run (env : Env) (order : List Nat) (host : String)
    (start_port end_port : Nat) (timeout : ℚ) (max_workers : Nat) : ScanRun :=
  match env.gethostbyname host with
  | none => { dispatched := [], results := [], returned := [] }
  | some _target_ip =>
      let ports := ports_to_scan start_port end_port
      let results := order.map (fun port => scan_port env host port timeout)
      { dispatched := ports.map (fun port => (host, port, timeout)),
        results := results,
        returned := List.insertionSort byPortLE
          (results.filter (fun r => r.status == Status.abierto)) }

/-- The report `scan_ports` would produce if the futures completed in
submission order: used to state that the returned report does not depend on
the completion order. -/
def scan_report (env : Env) (host : String) (start_port end_port : Nat)
    (timeout : ℚ) : List PortResult :=
  List.insertionSort byPortLE
    (((ports_to_scan start_port end_port).map
        (fun port => scan_port env host port timeout)).filter
      (fun r => r.status == Status.abierto))

/-- `ThreadPoolExecutor._adjust_thread_count`, run once per `submit`: a new
worker thread is started only while the current thread count is below
`max_workers`. -/
def adjust_thread_count (max_workers threads : Nat) : Nat :=
  if threads < max_workers then threads + 1 else threads

/-- Worker threads alive after `n` submissions to a fresh
`ThreadPoolExecutor(max_workers=max_workers)`. -/
def threads_after (max_workers : Nat) : Nat → Nat
  | 0 => 0
  | n + 1 => adjust_thread_count max_workers (threads_after max_workers n)

/-- The `common_ports` list of `quick_scan`. -/
def common_ports : List Nat :=
  [21, 22, 23, 25, 53, 80, 110, 135, 139, 143, 443, 445,
   993, 995, 1433, 1521, 3306, 3389, 5432, 5900, 8080, 8443]

/-- The timeout `quick_scan` passes to every probe: `0.5`. -/
def quick_scan_timeout : ℚ := 1 / 2

/-- `quick_scan(host)`: a sequential `for` loop over `common_ports`; each
iteration probes one port with timeout `0.5` and appends the result to
`open_ports` when its status is `"abierto"`. -/
def quick_scan (env : Env) (host : String) : List PortResult :=
  common_ports.foldl
    (fun open_ports port =>
      if (scan_port env host port quick_scan_timeout).status == Status.abierto then
        open_ports ++ [scan_port env host port quick_scan_timeout]
      else
        open_ports)
    []

/-- Outcome of a `scan_ports` call during which a `KeyboardInterrupt` may
arrive while the main thread iterates `as_completed`: `returned = none`
means the exception propagated and the caller received no list at all. -/
structure InterruptedRun where
  dispatched : List (String × Nat × ℚ)
  collected : List PortResult
  returned : Option (List PortResult)
deriving DecidableEq, Repr

/-- `scan_ports` under an operator interrupt (`KeyboardInterrupt`)
delivered after `k` results have been collected (`interrupt = some k` with
`k` below the number of ports).  Every future is submitted in the dict
comprehension before the collection loop starts, so the interrupt cannot
prevent any submission; leaving the `with` block runs
`executor.shutdown(wait=True)` (no `cancel_futures`), which still executes
every submitted probe; and the exception propagates out of `scan_ports`,
discarding the locally accumulated `open_ports` list. -/
def scan_ports_interruptible (env : Env) (order : List Nat) (host : String)
    (start_port end_port : Nat) (timeout : ℚ) (max_workers : Nat)
    (interrupt : Option Nat) : InterruptedRun :=
  match env.gethostbyname host with
  | none => { dispatched := [], collected := [], returned := some [] }
  | some _target_ip =>
      let ports := ports_to_scan start_port end_port
      let results := order.map (fun port => scan_port env host port timeout)
      let dispatched := ports.map (fun port => (host, port, timeout))
      match interrupt with
      | some k =>
          if k < ports.length then
            { dispatched := dispatched, collected := results.take k, returned := none }
          else
            { dispatched := dispatched, collected := results,
              returned := some (List.insertionSort byPortLE
                (results.filter (fun r => r.status == Status.abierto))) }
      | none =>
          { dispatched := dispatched, collected := results,
            returned := some (List.insertionSort byPortLE
              (results.filter (fun r => r.status == Status.abierto))) }

/-! ### Helper lemmas -/

theorem scan_port_port (env : Env) (host : String) (port : Nat) (t : ℚ) :
    (scan_port env host port t).port = port := by
  unfold scan_port
  cases env.connect host port t with
  | accepted => cases env.getservbyport port <;> rfl
  | refused => rfl
  | timedOut => rfl
  | failCode c => simp [connect_ex, c.2]
  | raisedError m => rfl

theorem scan_ports_run_resolved (env : Env) (order : List Nat) (host : String)
    (s e : Nat) (t : ℚ) (w : Nat) (ip : String)
    (hres : env.gethostbyname host = some ip) :
    scan_ports_run env order host s e t w =
      { dispatched := (ports_to_scan s e).map (fun port => (host, port, t)),
        results := order.map (fun port => scan_port env host port t),
        returned := List.insertionSort byPortLE
          ((order.map (fun port => scan_port env host port t)).filter
            (fun r => r.status == Status.abierto)) } := by
  unfold scan_ports_run
  rw [hres]

theorem scan_ports_run_unresolved (env : Env) (order : List Nat) (host : String)
    (s e : Nat) (t : ℚ) (w : Nat)
    (hres : env.gethostbyname host = none) :
    scan_ports_run env order host s e t w =
      { dispatched := [], results := [], returned := [] } := by
  unfold scan_ports_run
  rw [hres]

theorem map_port_map_scan_port (env : Env) (host : String) (t : ℚ)
    (l : List Nat) :
    (l.map (fun port => scan_port env host port t)).map (fun r => r.port) = l := by
  rw [List.map_map]
  have h : (fun r => PortResult.port r) ∘ (fun port => scan_port env host port t)
      = fun port => port := by
    funext port
    exact scan_port_port env host port t
  rw [h, List.map_id']

theorem nodup_ports_of_sort_filter (env : Env) (host : String) (t : ℚ)
    (order : List Nat) (hn : order.Nodup) :
    ((List.insertionSort byPortLE
        ((order.map (fun port => scan_port env host port t)).filter
          (fun r => r.status == Status.abierto))).map (fun r => r.port)).Nodup := by
  have hperm := (List.perm_insertionSort byPortLE
    ((order.map (fun port => scan_port env host port t)).filter
      (fun r => r.status == Status.abierto))).map (fun r => r.port)
  rw [(hperm.nodup_iff)]
  have hsub : ((order.map (fun port => scan_port env host port t)).filter
      (fun r => r.status == Status.abierto)).Sublist
      (order.map (fun port => scan_port env host port t)) :=
    List.filter_sublist _
  have hsubm := hsub.map (fun r => r.port)
  rw [map_port_map_scan_port] at hsubm
  exact hn.sublist hsubm

theorem sorted_lt_of_sorted_le_nodup (l : List PortResult)
    (hs : List.Sorted byPortLE l) (hn : (l.map (fun r => r.port)).Nodup) :
    List.Sorted byPortLT l := by
  have hne : l.Pairwise (fun a b => a.port ≠ b.port) := (List.pairwise_map).mp hn
  exact (hs.and hne).imp (fun h => Nat.lt_of_le_of_ne h.1 h.2)

theorem sorted_returned (env : Env) (host : String) (t : ℚ)
    (order : List Nat) (hn : order.Nodup) :
    List.Sorted byPortLT
      (List.insertionSort byPortLE
        ((order.map (fun port => scan_port env host port t)).filter
          (fun r => r.status == Status.abierto))) :=
  sorted_lt_of_sorted_le_nodup _
    (List.sorted_insertionSort byPortLE _)
    (nodup_ports_of_sort_filter env host t order hn)

theorem ports_to_scan_nodup (s e : Nat) : (ports_to_scan s e).Nodup :=
  List.nodup_range' s (e + 1 - s)

theorem mem_ports_to_scan (p s e : Nat) (hle : s ≤ e) :
    p ∈ ports_to_scan s e ↔ s ≤ p ∧ p ≤ e := by
  unfold ports_to_scan
  rw [List.mem_range'_1]
  omega

theorem ports_to_scan_empty (s e : Nat) (h : e < s) : ports_to_scan s e = [] := by
  unfold ports_to_scan
  have h0 : e + 1 - s = 0 := by omega
  rw [h0]
  rfl

theorem foldl_filter_open (env : Env) (host : String) (l : List Nat) :
    ∀ acc : List PortResult,
      l.foldl
        (fun open_ports port =>
          if (scan_port env host port quick_scan_timeout).status == Status.abierto then
            open_ports ++ [scan_port env host port quick_scan_timeout]
          else open_ports) acc
      = acc ++ (l.map (fun p => scan_port env host p quick_scan_timeout)).filter
          (fun r => r.status == Status.abierto) := by
  induction l with
  | nil => intro acc; simp
  | cons p l ih =>
      intro acc
      rw [List.foldl_cons, List.map_cons, List.filter_cons]
      by_cases h : ((scan_port env host p quick_scan_timeout).status == Status.abierto) = true
      · rw [if_pos h, if_pos h, ih (acc ++ [scan_port env host p quick_scan_timeout])]
        simp
      · rw [if_neg h, if_neg h, ih acc]

theorem quick_scan_eq_filter_map (env : Env) (host : String) :
    quick_scan env host =
      (common_ports.map (fun p => scan_port env host p quick_scan_timeout)).filter
        (fun r => r.status == Status.abierto) := by
  unfold quick_scan
  rw [foldl_filter_open env host common_ports []]
  rfl

theorem quick_scan_sorted (env : Env) (host : String) :
    List.Sorted byPortLT (quick_scan env host) := by
  rw [quick_scan_eq_filter_map env host]
  have hcp : common_ports.Pairwise (fun a b => a < b) := by decide
  have hmap : (common_ports.map
      (fun p => scan_port env host p quick_scan_timeout)).Pairwise byPortLT :=
    (List.pairwise_map).mpr (hcp.imp (fun {a b} h => by
      show byPortLT (scan_port env host a quick_scan_timeout)
        (scan_port env host b quick_scan_timeout)
      unfold byPortLT
      rw [scan_port_port env host a quick_scan_timeout,
        scan_port_port env host b quick_scan_timeout]
      exact h))
  exact hmap.sublist (List.filter_sublist _)

theorem scan_port_accepted_some (env : Env) (host : String) (port : Nat)
    (t : ℚ) (s : String)
    (hc : env.connect host port t = ProbeEvent.accepted)
    (hs : env.getservbyport port = some s) :
    scan_port env host port t =
      { port := port, status := .abierto, service := some s, error := none } := by
  unfold scan_port
  rw [hc, hs]
  rfl

theorem scan_port_accepted_none (env : Env) (host : String) (port : Nat)
    (t : ℚ)
    (hc : env.connect host port t = ProbeEvent.accepted)
    (hs : env.getservbyport port = none) :
    scan_port env host port t =
      { port := port, status := .abierto, service := some "desconocido", error := none } := by
  unfold scan_port
  rw [hc, hs]
  rfl

theorem scan_port_refused (env : Env) (host : String) (port : Nat) (t : ℚ)
    (hc : env.connect host port t = ProbeEvent.refused) :
    scan_port env host port t =
      { port := port, status := .cerrado, service := none, error := none } := by
  unfold scan_port
  rw [hc]
  rfl

theorem scan_port_timedOut (env : Env) (host : String) (port : Nat) (t : ℚ)
    (hc : env.connect host port t = ProbeEvent.timedOut) :
    scan_port env host port t =
      { port := port, status := .cerrado, service := none, error := none } := by
  unfold scan_port
  rw [hc]
  rfl

theorem scan_port_failCode (env : Env) (host : String) (port : Nat) (t : ℚ)
    (c : {z : Int // z ≠ 0})
    (hc : env.connect host port t = ProbeEvent.failCode c) :
    scan_port env host port t =
      { port := port, status := .cerrado, service := none, error := none } := by
  unfold scan_port
  rw [hc]
  simp [connect_ex, c.2]

theorem scan_port_raisedError (env : Env) (host : String) (port : Nat) (t : ℚ)
    (msg : String)
    (hc : env.connect host port t = ProbeEvent.raisedError msg) :
    scan_port env host port t =
      { port := port, status := .error, service := none, error := some msg } := by
  unfold scan_port
  rw [hc]
  rfl

/-! ### Concrete environments used by witnesses and counterexamples -/

/-- A network on which no hostname resolves. -/
def envUnresolved : Env :=
  { gethostbyname := fun _ => none,
    connect := fun _ _ _ => .refused,
    getservbyport := fun _ => none }

/-- A network on which every hostname resolves to `203.0.113.5` and every
port actively refuses the connection. -/
def envAllClosed : Env :=
  { gethostbyname := fun _ => some "203.0.113.5",
    connect := fun _ _ _ => .refused,
    getservbyport := fun _ => none }

/-- A network on which `"localhost"` resolves to `"127.0.0.1"` and every
port refuses. -/
def envLocalhost : Env :=
  { gethostbyname := fun h => if h = "localhost" then some "127.0.0.1" else none,
    connect := fun _ _ _ => .refused,
    getservbyport := fun _ => none }

/-- A network on which port 1 refuses and every other port times out. -/
def envRefusedTimeout : Env :=
  { gethostbyname := fun _ => some "203.0.113.9",
    connect := fun _ p _ => if p = 1 then .refused else .timedOut,
    getservbyport := fun _ => none }

/-- A network on which every connect is accepted and no service name
resolves. -/
def envOpenNoService : Env :=
  { gethostbyname := fun _ => some "203.0.113.17",
    connect := fun _ _ _ => .accepted,
    getservbyport := fun _ => none }

/-! ### Claims -/

/-- C1 (corrected): if the hostname does not resolve, `scan_ports` aborts
immediately — no probe is submitted and no probe result is produced — but
no resolution error propagates to the caller: the function prints a
message and returns the ordinary empty list. -/
theorem c1_unresolvable_aborts_with_empty_list (env : Env) (order : List Nat)
    (host : String) (s e : Nat) (t : ℚ) (w : Nat)
    (hres : env.gethostbyname host = none) :
    (scan_ports_run env order host s e t w).dispatched = [] ∧
    (scan_ports_run env order host s e t w).results = [] ∧
    (scan_ports_run env order host s e t w).returned = [] := by
  rw [scan_ports_run_unresolved env order host s e t w hres]
  exact ⟨rfl, rfl, rfl⟩

theorem c1_unresolvable_aborts_with_empty_list_witness :
    envUnresolved.gethostbyname "does-not-exist.invalid" = none ∧
    ((scan_ports_run envUnresolved [] "does-not-exist.invalid" 1 1024 1 100).dispatched = [] ∧
     (scan_ports_run envUnresolved [] "does-not-exist.invalid" 1 1024 1 100).results = [] ∧
     (scan_ports_run envUnresolved [] "does-not-exist.invalid" 1 1024 1 100).returned = []) :=
  ⟨rfl, c1_unresolvable_aborts_with_empty_list envUnresolved []
    "does-not-exist.invalid" 1 1024 1 100 rfl⟩

/-- C1 counterexample: the claimed propagation of a resolution failure does
not happen — on the unresolvable host the call returns the plain value
`[]`, exactly the value a successful scan that finds no open port returns,
so the caller cannot tell the failure from an ordinary empty result. -/
theorem c1_counterexample :
    (scan_ports_run envUnresolved [] "does-not-exist.invalid" 1 3 1 100).returned = [] ∧
    (scan_ports_run envAllClosed [1, 2, 3] "resolvable.example" 1 3 1 100).returned = [] ∧
    (scan_ports_run envUnresolved [] "does-not-exist.invalid" 1 3 1 100).returned =
      (scan_ports_run envAllClosed [1, 2, 3] "resolvable.example" 1 3 1 100).returned := by
  refine ⟨rfl, ?_, ?_⟩ <;> decide

/-- C2 (code bug): `scan_ports("localhost", 1, 2)` resolves the host once
to `"127.0.0.1"`, but every submitted probe still receives the original
string `"localhost"` — the resolved IP is computed, printed and then never
passed to `scan_port`. -/
theorem c2_probes_use_host_string_not_resolved_ip :
    envLocalhost.gethostbyname "localhost" = some "127.0.0.1" ∧
    ((scan_ports_run envLocalhost [1, 2] "localhost" 1 2 1 100).dispatched).map
        (fun d => d.1) = ["localhost", "localhost"] ∧
    "localhost" ≠ "127.0.0.1" := by
  refine ⟨rfl, rfl, ?_⟩
  decide

/-- C5 (confirmed): a probe whose TCP connect is actively refused, or whose
per-probe timeout elapses, yields status `"cerrado"` and never
`"error"`. -/
theorem c5_refused_or_timeout_is_closed (env : Env) (host : String)
    (port : Nat) (t : ℚ)
    (h : env.connect host port t = ProbeEvent.refused ∨
         env.connect host port t = ProbeEvent.timedOut) :
    (scan_port env host port t).status = Status.cerrado ∧
    (scan_port env host port t).status ≠ Status.error := by
  have hc : (scan_port env host port t).status = Status.cerrado := by
    rcases h with h | h
    · rw [scan_port_refused env host port t h]
    · rw [scan_port_timedOut env host port t h]
  refine ⟨hc, ?_⟩
  rw [hc]
  decide

theorem c5_refused_or_timeout_is_closed_witness :
    (envRefusedTimeout.connect "203.0.113.9" 22 1 = ProbeEvent.refused ∨
     envRefusedTimeout.connect "203.0.113.9" 22 1 = ProbeEvent.timedOut) ∧
    ((scan_port envRefusedTimeout "203.0.113.9" 22 1).status = Status.cerrado ∧
     (scan_port envRefusedTimeout "203.0.113.9" 22 1).status ≠ Status.error) :=
  ⟨Or.inr rfl,
   c5_refused_or_timeout_is_closed envRefusedTimeout "203.0.113.9" 22 1 (Or.inr rfl)⟩

/-- C7 counterexample: when the service-name lookup fails on an open port
the service field is not absent — the code stores the placeholder string
`"desconocido"` instead of omitting the value. -/
theorem c7_counterexample :
    envOpenNoService.getservbyport 8080 = none ∧
    (scan_port envOpenNoService "203.0.113.17" 8080 1).status = Status.abierto ∧
    (scan_port envOpenNoService "203.0.113.17" 8080 1).service ≠ none ∧
    (scan_port envOpenNoService "203.0.113.17" 8080 1).service = some "desconocido" := by
  refine ⟨rfl, rfl, ?_, rfl⟩
  decide

/-- C7 (corrected): the service lookup is attempted only on open ports —
for any non-accepted connect outcome the result does not depend on
`getservbyport` at all — and the lookup is best-effort: a failed lookup
never yields an error, the port is still reported `"abierto"`, but the
service field then holds the placeholder string `"desconocido"` rather
than being absent; a successful lookup stores the looked-up name. -/
theorem c7_service_lookup_best_effort (env : Env) (host : String)
    (port : Nat) (t : ℚ)
    (hopen : env.connect host port t = ProbeEvent.accepted) :
    (env.getservbyport port = none →
      scan_port env host port t =
        { port := port, status := .abierto, service := some "desconocido", error := none }) ∧
    (∀ s : String, env.getservbyport port = some s →
      scan_port env host port t =
        { port := port, status := .abierto, service := some s, error := none }) ∧
    (∀ env' : Env, ∀ g : Nat → Option String,
      env'.connect host port t ≠ ProbeEvent.accepted →
      scan_port { env' with getservbyport := g } host port t =
        scan_port env' host port t) := by
  refine ⟨?_, ?_, ?_⟩
  · intro hnone
    exact scan_port_accepted_none env host port t hopen hnone
  · intro s hs
    exact scan_port_accepted_some env host port t s hopen hs
  · intro env' g hne
    cases hc : env'.connect host port t with
    | accepted => exact absurd hc hne
    | refused =>
        rw [scan_port_refused { env' with getservbyport := g } host port t hc,
          scan_port_refused env' host port t hc]
    | timedOut =>
        rw [scan_port_timedOut { env' with getservbyport := g } host port t hc,
          scan_port_timedOut env' host port t hc]
    | failCode c =>
        rw [scan_port_failCode { env' with getservbyport := g } host port t c hc,
          scan_port_failCode env' host port t c hc]
    | raisedError msg =>
        rw [scan_port_raisedError { env' with getservbyport := g } host port t msg hc,
          scan_port_raisedError env' host port t msg hc]

theorem c7_service_lookup_best_effort_witness :
    envOpenNoService.connect "203.0.113.17" 80 1 = ProbeEvent.accepted ∧
    (envOpenNoService.getservbyport 80 = none →
      scan_port envOpenNoService "203.0.113.17" 80 1 =
        { port := 80, status := .abierto, service := some "desconocido", error := none }) :=
  ⟨rfl,
   (c7_service_lookup_best_effort envOpenNoService "203.0.113.17" 80 1 rfl).1⟩

/-- C10 (confirmed): when the host resolves, `scan_ports` submits exactly
one probe per element of `range(start_port, end_port + 1)` with no
validation of the declared `1 ≤ start ≤ end ≤ 65535` bounds; in
particular an inverted range (`start_port > end_port`) makes that range
empty, so nothing is submitted and the empty list is returned without any
error. -/
theorem c10_inverted_range_and_no_validation (env : Env) (order : List Nat)
    (host : String) (s e : Nat) (t : ℚ) (w : Nat) (ip : String)
    (hres : env.gethostbyname host = some ip) :
    (scan_ports_run env order host s e t w).dispatched =
      (ports_to_scan s e).map (fun port => (host, port, t)) ∧
    (e < s → (scan_ports_run env order host s e t w).dispatched = []) ∧
    (e < s → order.Perm (ports_to_scan s e) →
      (scan_ports_run env order host s e t w).results = [] ∧
      (scan_ports_run env order host s e t w).returned = []) := by
  rw [scan_ports_run_resolved env order host s e t w ip hres]
  refine ⟨rfl, ?_, ?_⟩
  · intro hlt
    show (ports_to_scan s e).map (fun port => (host, port, t)) = []
    rw [ports_to_scan_empty s e hlt]
    rfl
  · intro hlt hperm
    rw [ports_to_scan_empty s e hlt] at hperm
    have h0 : order = [] := hperm.eq_nil
    rw [h0]
    exact ⟨rfl, rfl⟩

theorem c10_inverted_range_and_no_validation_witness :
    envAllClosed.gethostbyname "resolvable.example" = some "203.0.113.5" ∧
    3 < 5 ∧
    (scan_ports_run envAllClosed [] "resolvable.example" 5 3 1 100).dispatched = [] ∧
    (scan_ports_run envAllClosed [] "resolvable.example" 5 3 1 100).returned = [] := by
  have h := c10_inverted_range_and_no_validation envAllClosed []
    "resolvable.example" 5 3 1 100 "203.0.113.5" rfl
  exact ⟨rfl, by decide, h.2.1 (by decide), (h.2.2 (by decide) (by decide)).2⟩

/-- A network with ports 22 and 443 open (the service name resolves only
for 22) and every other port refusing. -/
def envTwoOpen : Env :=
  { gethostbyname := fun _ => some "203.0.113.33",
    connect := fun _ p _ => if p = 22 ∨ p = 443 then .accepted else .refused,
    getservbyport := fun p => if p = 22 then some "ssh" else none }

/-- C3 (confirmed): every completed scan returns exactly the probe results
with status `"abierto"`, strictly sorted by ascending port number,
whatever the completion order.  For `scan_ports`, the returned report is a
permutation of the open-status results, strictly sorted by port, and equal
to `scan_report`, the completion-order-independent report.  For
`quick_scan`, the returned list is exactly the open-status results of
probing `common_ports` and is strictly sorted by port: the loop is
sequential and the `common_ports` constant is strictly ascending. -/
theorem c3_report_is_sorted_open_results (env : Env) (order : List Nat)
    (host : String) (s e : Nat) (t : ℚ) (w : Nat) (ip : String)
    (hres : env.gethostbyname host = some ip)
    (hperm : order.Perm (ports_to_scan s e)) :
    (((scan_ports_run env order host s e t w).returned).Perm
      (((scan_ports_run env order host s e t w).results).filter
        (fun r => r.status == Status.abierto)) ∧
     List.Sorted byPortLT ((scan_ports_run env order host s e t w).returned) ∧
     (scan_ports_run env order host s e t w).returned = scan_report env host s e t) ∧
    (∀ env' : Env, ∀ host' : String,
      quick_scan env' host' =
        (common_ports.map (fun p => scan_port env' host' p quick_scan_timeout)).filter
          (fun r => r.status == Status.abierto) ∧
      List.Sorted byPortLT (quick_scan env' host')) := by
  refine ⟨?_, fun env' host' =>
    ⟨quick_scan_eq_filter_map env' host', quick_scan_sorted env' host'⟩⟩
  rw [scan_ports_run_resolved env order host s e t w ip hres]
  have hnodup : order.Nodup := (hperm.nodup_iff).mpr (ports_to_scan_nodup s e)
  refine ⟨?_, ?_, ?_⟩
  · exact List.perm_insertionSort byPortLE _
  · exact sorted_returned env host t order hnodup
  · show List.insertionSort byPortLE
        ((order.map (fun port => scan_port env host port t)).filter
          (fun r => r.status == Status.abierto)) = scan_report env host s e t
    unfold scan_report
    have h1 := List.perm_insertionSort byPortLE
      ((order.map (fun port => scan_port env host port t)).filter
        (fun r => r.status == Status.abierto))
    have h2 := List.perm_insertionSort byPortLE
      (((ports_to_scan s e).map (fun port => scan_port env host port t)).filter
        (fun r => r.status == Status.abierto))
    have hmid := (hperm.map (fun port => scan_port env host port t)).filter
      (fun r => r.status == Status.abierto)
    exact List.eq_of_perm_of_sorted (h1.trans (hmid.trans h2.symm))
      (sorted_returned env host t order hnodup)
      (sorted_returned env host t (ports_to_scan s e) (ports_to_scan_nodup s e))

theorem c3_report_is_sorted_open_results_witness :
    envTwoOpen.gethostbyname "target.example" = some "203.0.113.33" ∧
    ([23, 22, 21].Perm (ports_to_scan 21 23)) ∧
    (((scan_ports_run envTwoOpen [23, 22, 21] "target.example" 21 23 1 100).returned).Perm
        (((scan_ports_run envTwoOpen [23, 22, 21] "target.example" 21 23 1 100).results).filter
          (fun r => r.status == Status.abierto)) ∧
      List.Sorted byPortLT
        ((scan_ports_run envTwoOpen [23, 22, 21] "target.example" 21 23 1 100).returned) ∧
      (scan_ports_run envTwoOpen [23, 22, 21] "target.example" 21 23 1 100).returned =
        scan_report envTwoOpen "target.example" 21 23 1) ∧
    (quick_scan envTwoOpen "target.example" =
        (common_ports.map
          (fun p => scan_port envTwoOpen "target.example" p quick_scan_timeout)).filter
          (fun r => r.status == Status.abierto) ∧
      List.Sorted byPortLT (quick_scan envTwoOpen "target.example")) :=
  ⟨rfl, by decide,
   (c3_report_is_sorted_open_results envTwoOpen [23, 22, 21] "target.example" 21 23 1 100
     "203.0.113.33" rfl (by decide)).1,
   (c3_report_is_sorted_open_results envTwoOpen [23, 22, 21] "target.example" 21 23 1 100
     "203.0.113.33" rfl (by decide)).2 envTwoOpen "target.example"⟩

/-- C4 (confirmed): when the host resolves and the scan completes without
cancellation, exactly one `PortResult` is produced per port of the
requested range `[start_port, end_port]` — the result ports are a
permutation of the range, each requested port is counted exactly once and
every other port zero times. -/
theorem c4_one_result_per_port (env : Env) (order : List Nat)
    (host : String) (s e : Nat) (t : ℚ) (w : Nat) (ip : String)
    (hres : env.gethostbyname host = some ip)
    (hperm : order.Perm (ports_to_scan s e))
    (hle : s ≤ e) :
    (((scan_ports_run env order host s e t w).results).map (fun r => r.port)).Perm
      (ports_to_scan s e) ∧
    (∀ p : Nat,
      (((scan_ports_run env order host s e t w).results).map (fun r => r.port)).count p
        = if s ≤ p ∧ p ≤ e then 1 else 0) := by
  rw [scan_ports_run_resolved env order host s e t w ip hres]
  have hmap : (order.map (fun port => scan_port env host port t)).map (fun r => r.port)
      = order := map_port_map_scan_port env host t order
  constructor
  · show ((order.map (fun port => scan_port env host port t)).map
      (fun r => r.port)).Perm (ports_to_scan s e)
    rw [hmap]
    exact hperm
  · intro p
    show ((order.map (fun port => scan_port env host port t)).map
      (fun r => r.port)).count p = _
    rw [hmap, hperm.count_eq p]
    by_cases hmem : p ∈ ports_to_scan s e
    · rw [List.count_eq_one_of_mem (ports_to_scan_nodup s e) hmem,
        if_pos ((mem_ports_to_scan p s e hle).mp hmem)]
    · rw [List.count_eq_zero.mpr hmem,
        if_neg (fun hc => hmem ((mem_ports_to_scan p s e hle).mpr hc))]

theorem c4_one_result_per_port_witness :
    envTwoOpen.gethostbyname "target.example" = some "203.0.113.33" ∧
    ([23, 22, 21].Perm (ports_to_scan 21 23)) ∧
    21 ≤ 23 ∧
    ((((scan_ports_run envTwoOpen [23, 22, 21] "target.example" 21 23 1 100).results).map
        (fun r => r.port)).Perm (ports_to_scan 21 23) ∧
     (∀ p : Nat,
       (((scan_ports_run envTwoOpen [23, 22, 21] "target.example" 21 23 1 100).results).map
         (fun r => r.port)).count p = if 21 ≤ p ∧ p ≤ 23 then 1 else 0)) :=
  ⟨rfl, by decide, by decide,
   c4_one_result_per_port envTwoOpen [23, 22, 21] "target.example" 21 23 1 100
     "203.0.113.33" rfl (by decide) (by decide)⟩

/-- A network on which the connect to port 2 fails with `ENETUNREACH`
(errno 101, network unreachable), returned by `connect_ex` as a nonzero
code, while ports 1 and 3 refuse. -/
def envNetUnreachable : Env :=
  { gethostbyname := fun _ => some "203.0.113.41",
    connect := fun _ p _ => if p = 2 then .failCode ⟨101, by decide⟩ else .refused,
    getservbyport := fun _ => none }

/-- A network on which the probe of port 2 raises `socket.error` — the
host string passed to the probe fails to re-resolve there (`gaierror`) —
while ports 1 and 3 refuse. -/
def envRaisingProbe : Env :=
  { gethostbyname := fun _ => some "203.0.113.41",
    connect := fun _ p _ => if p = 2 then .raisedError "getaddrinfo failed" else .refused,
    getservbyport := fun _ => none }

/-- C6 counterexample: at the spec's own example of another socket-level
failure — an unreachable network, which `connect_ex` reports as errno
`ENETUNREACH` — the probe result has status `"cerrado"`, not `"error"`;
and a probe failure that does raise `socket.error` produces an `"error"`
result that never aborts the scan but appears nowhere in the returned
report. -/
theorem c6_counterexample :
    scan_port envNetUnreachable "h" 2 1 =
      { port := 2, status := Status.cerrado, service := none, error := none } ∧
    (scan_port envNetUnreachable "h" 2 1).status ≠ Status.error ∧
    scan_port envRaisingProbe "h" 2 1 =
      { port := 2, status := Status.error, service := none,
        error := some "getaddrinfo failed" } ∧
    (scan_ports_run envRaisingProbe [1, 2, 3] "h" 1 3 1 100).results =
      [{ port := 1, status := Status.cerrado, service := none, error := none },
       { port := 2, status := Status.error, service := none,
         error := some "getaddrinfo failed" },
       { port := 3, status := Status.cerrado, service := none, error := none }] ∧
    (scan_ports_run envRaisingProbe [1, 2, 3] "h" 1 3 1 100).returned = [] := by
  refine ⟨rfl, by decide, rfl, ?_, ?_⟩ <;> rfl

/-- C6 (corrected): a socket-level connect failure that `connect_ex`
reports as a nonzero errno code — e.g. an unreachable network — yields
status `"cerrado"`, indistinguishable from a closed port, not `"error"`;
only a probe failure that actually raises `socket.error` (e.g. `gaierror`
while the probe re-resolves the host string) yields a `PortResult` with
status `"error"` carrying the underlying message.  Such a failure never
aborts the scan — every port of the range still gets exactly one result —
but the error result is not recorded in the returned report: `scan_ports`
returns only the `"abierto"` results, so per-port errors are dropped
rather than being retrievable from the return value. -/
theorem c6_error_nonfatal_but_dropped (env : Env) (order : List Nat)
    (host : String) (s e : Nat) (t : ℚ) (w : Nat) (ip : String)
    (port : Nat) (msg : String)
    (hres : env.gethostbyname host = some ip)
    (hperm : order.Perm (ports_to_scan s e))
    (hmem : port ∈ ports_to_scan s e)
    (hfail : env.connect host port t = ProbeEvent.raisedError msg) :
    (∀ env' : Env, ∀ host' : String, ∀ p : Nat, ∀ u : ℚ,
      ∀ c : {z : Int // z ≠ 0}, env'.connect host' p u = ProbeEvent.failCode c →
      (scan_port env' host' p u).status = Status.cerrado) ∧
    ({ port := port, status := Status.error, service := none, error := some msg } : PortResult)
        ∈ (scan_ports_run env order host s e t w).results ∧
    ((scan_ports_run env order host s e t w).results).length = (ports_to_scan s e).length ∧
    (∀ r, r ∈ (scan_ports_run env order host s e t w).returned →
      r.status = Status.abierto) := by
  rw [scan_ports_run_resolved env order host s e t w ip hres]
  refine ⟨?_, ?_, ?_, ?_⟩
  · intro env' host' p u c hc
    rw [scan_port_failCode env' host' p u c hc]
  · have hmem' : port ∈ order := hperm.mem_iff.mpr hmem
    have hm : scan_port env host port t ∈
        order.map (fun port => scan_port env host port t) :=
      List.mem_map_of_mem (fun port => scan_port env host port t) hmem'
    rw [scan_port_raisedError env host port t msg hfail] at hm
    exact hm
  · show (order.map (fun port => scan_port env host port t)).length = _
    rw [List.length_map, hperm.length_eq]
  · intro r hr
    have hr' : r ∈ (order.map (fun port => scan_port env host port t)).filter
        (fun r => r.status == Status.abierto) :=
      (List.perm_insertionSort byPortLE _).mem_iff.mp hr
    exact eq_of_beq (List.mem_filter.mp hr').2

theorem c6_error_nonfatal_but_dropped_witness :
    envRaisingProbe.gethostbyname "h" = some "203.0.113.41" ∧
    ([1, 2, 3].Perm (ports_to_scan 1 3)) ∧
    2 ∈ ports_to_scan 1 3 ∧
    envRaisingProbe.connect "h" 2 1 = ProbeEvent.raisedError "getaddrinfo failed" ∧
    (({ port := 2, status := Status.error, service := none,
        error := some "getaddrinfo failed" } : PortResult)
        ∈ (scan_ports_run envRaisingProbe [1, 2, 3] "h" 1 3 1 100).results ∧
     ((scan_ports_run envRaisingProbe [1, 2, 3] "h" 1 3 1 100).results).length =
        (ports_to_scan 1 3).length ∧
     (∀ r, r ∈ (scan_ports_run envRaisingProbe [1, 2, 3] "h" 1 3 1 100).returned →
        r.status = Status.abierto)) :=
  ⟨rfl, by decide, by decide, rfl,
   (c6_error_nonfatal_but_dropped envRaisingProbe [1, 2, 3] "h" 1 3 1 100 "203.0.113.41"
     2 "getaddrinfo failed" rfl (by decide) (by decide) rfl).2⟩

theorem threads_after_eq_min (w : Nat) : ∀ n : Nat, threads_after w n = min w n := by
  intro n
  induction n with
  | zero =>
      show (0 : Nat) = min w 0
      omega
  | succ n ih =>
      show adjust_thread_count w (threads_after w n) = min w (n + 1)
      unfold adjust_thread_count
      rw [ih]
      split <;> omega

/-- C8 (confirmed): `scan_ports` submits its probes to a
`ThreadPoolExecutor` whose default `max_workers` is 100; threads are
spawned lazily, one per submission, so after `n` submissions the pool
holds exactly `min(max_workers, n)` worker threads — for a full range,
`min(100, total_ports)`.  `quick_scan` uses no pool at all: its loop
probes the common ports sequentially in list order with timeout `0.5`,
producing the open results in that same order. -/
theorem c8_pool_bound_and_quick_scan_sequential :
    default_max_workers = 100 ∧
    (∀ max_workers n : Nat, threads_after max_workers n = min max_workers n) ∧
    (∀ s e : Nat, threads_after default_max_workers (ports_to_scan s e).length
      = min 100 (ports_to_scan s e).length) ∧
    (∀ env : Env, ∀ host : String,
      quick_scan env host =
        (common_ports.map (fun p => scan_port env host p quick_scan_timeout)).filter
          (fun r => r.status == Status.abierto)) := by
  refine ⟨rfl, threads_after_eq_min, ?_, ?_⟩
  · intro s e
    exact threads_after_eq_min 100 (ports_to_scan s e).length
  · intro env host
    unfold quick_scan
    rw [foldl_filter_open env host common_ports []]
    rfl

/-- A network with port 1 open and every other port refusing. -/
def envOneOpen : Env :=
  { gethostbyname := fun _ => some "198.51.100.7",
    connect := fun _ p _ => if p = 1 then .accepted else .refused,
    getservbyport := fun _ => none }

theorem scan_ports_interruptible_interrupted (env : Env) (order : List Nat)
    (host : String) (s e : Nat) (t : ℚ) (w : Nat) (k : Nat) (ip : String)
    (hres : env.gethostbyname host = some ip)
    (hk : k < (ports_to_scan s e).length) :
    scan_ports_interruptible env order host s e t w (some k) =
      { dispatched := (ports_to_scan s e).map (fun port => (host, port, t)),
        collected := (order.map (fun port => scan_port env host port t)).take k,
        returned := none } := by
  unfold scan_ports_interruptible
  rw [hres]
  show (if k < (ports_to_scan s e).length then
      ({ dispatched := (ports_to_scan s e).map (fun port => (host, port, t)),
         collected := (order.map (fun port => scan_port env host port t)).take k,
         returned := none } : InterruptedRun)
    else
      { dispatched := (ports_to_scan s e).map (fun port => (host, port, t)),
        collected := order.map (fun port => scan_port env host port t),
        returned := some (List.insertionSort byPortLE
          ((order.map (fun port => scan_port env host port t)).filter
            (fun r => r.status == Status.abierto))) }) = _
  rw [if_pos hk]

/-- C9 (corrected): `scan_ports` has no cancellation support.  Every probe
is submitted before the first result is collected, so an operator
interrupt (`KeyboardInterrupt`) arriving after `k` collected results
cannot prevent any probe from being dispatched; and the exception
propagates out of the function, so the caller receives no partial report —
the results collected so far are discarded rather than returned. -/
theorem c9_interrupt_discards_partial_results (env : Env) (order : List Nat)
    (host : String) (s e : Nat) (t : ℚ) (w : Nat) (k : Nat) (ip : String)
    (hres : env.gethostbyname host = some ip)
    (hk : k < (ports_to_scan s e).length) :
    (scan_ports_interruptible env order host s e t w (some k)).returned = none ∧
    (scan_ports_interruptible env order host s e t w (some k)).dispatched =
      (ports_to_scan s e).map (fun port => (host, port, t)) ∧
    (scan_ports_interruptible env order host s e t w (some k)).collected =
      (order.map (fun port => scan_port env host port t)).take k := by
  rw [scan_ports_interruptible_interrupted env order host s e t w k ip hres hk]
  exact ⟨rfl, rfl, rfl⟩

theorem c9_interrupt_discards_partial_results_witness :
    envOneOpen.gethostbyname "h" = some "198.51.100.7" ∧
    1 < (ports_to_scan 1 3).length ∧
    ((scan_ports_interruptible envOneOpen [1, 2, 3] "h" 1 3 1 100 (some 1)).returned = none ∧
     (scan_ports_interruptible envOneOpen [1, 2, 3] "h" 1 3 1 100 (some 1)).dispatched =
       (ports_to_scan 1 3).map (fun port => ("h", port, 1)) ∧
     (scan_ports_interruptible envOneOpen [1, 2, 3] "h" 1 3 1 100 (some 1)).collected =
       ([1, 2, 3].map (fun port => scan_port envOneOpen "h" port 1)).take 1) :=
  ⟨rfl, by decide,
   c9_interrupt_discards_partial_results envOneOpen [1, 2, 3] "h" 1 3 1 100 1
     "198.51.100.7" rfl (by decide)⟩

/-- C9 counterexample: interrupting the scan of ports 1–3 after one
collected result — an open port — returns nothing at all: the partial
result is discarded instead of being returned as a partial report, even
though all three probes were dispatched. -/
theorem c9_counterexample :
    (scan_ports_interruptible envOneOpen [1, 2, 3] "h" 1 3 1 100 (some 1)).collected =
      [{ port := 1, status := Status.abierto, service := some "desconocido", error := none }] ∧
    (scan_ports_interruptible envOneOpen [1, 2, 3] "h" 1 3 1 100 (some 1)).returned = none ∧
    (scan_ports_interruptible envOneOpen [1, 2, 3] "h" 1 3 1 100 (some 1)).dispatched =
      [("h", 1, 1), ("h", 2, 1), ("h", 3, 1)] := by
  refine ⟨?_, ?_, ?_⟩ <;> rfl

end PortScanner
